import Mathlib

/- Shallow embedding of src/src/hb-shape-plan.cc: shape-plan key equality,
   plan creation (hb_shape_plan_create2), cached creation
   (hb_shape_plan_create_cached2) with the per-face lock-free cache, and
   execution dispatch (hb_shape_plan_execute).  Machine pointers are
   modelled as Nat identities; C arrays of features/coordinates as Lean
   lists; allocation and backend-probe outcomes, which live outside this
   translation unit, as an explicit oracle. -/

namespace HBShapePlan

/-- Direction sentinel HB_DIRECTION_INVALID (hb-common.h, value 0). -/
def HB_DIRECTION_INVALID : Nat := 0

/-- HB_DIRECTION_LTR, a valid direction value (hb-common.h, value 4). -/
def HB_DIRECTION_LTR : Nat := 4

/-- HB_FEATURE_GLOBAL_START, the sentinel start of a global feature (0). -/
def HB_FEATURE_GLOBAL_START : Nat := 0

/-- HB_FEATURE_GLOBAL_END, the sentinel end of a global feature ((unsigned) -1). -/
def HB_FEATURE_GLOBAL_END : Nat := 4294967295

/-- Segment properties: script, language, direction (hb_segment_properties_t). -/
structure hb_segment_properties_t where
  script : Nat
  language : Nat
  direction : Nat
deriving DecidableEq, Repr

/-- A feature override (hb_feature_t): tag, value, and the [start, end) range;
    the field named end in C is end_ here because end is a Lean keyword. -/
structure hb_feature_t where
  tag : Nat
  value : Nat
  start : Nat
  end_ : Nat
deriving DecidableEq, Repr

/-- The shape-plan key (hb_shape_plan_key_t): segment properties, the owned
    feature and coordinate sequences, and the chosen shaper's function
    pointer (a Nat identity) and display name. -/
structure hb_shape_plan_key_t where
  props : hb_segment_properties_t
  user_features : List hb_feature_t
  coords : List Int
  shaper_func : Nat
  shaper_name : String
deriving DecidableEq, Repr

/-- Modelled from the spec: hb_segment_properties_equal (hb-common, not in
    src/) is field-wise equality of script, language and direction. -/
def hb_segment_properties_equal (a b : hb_segment_properties_t) : Bool :=
  a.script == b.script && a.language == b.language && a.direction == b.direction

/-- hb_shape_plan_key_user_features_equal: count equality, then memcmp of
    the packed feature arrays; memcmp of padding-free structs over equal
    counts is element-wise equality, modelled as list equality. -/
def hb_shape_plan_key_user_features_equal (key1 key2 : hb_shape_plan_key_t) : Bool :=
  if key1.user_features.length ≠ key2.user_features.length then false
  else key1.user_features == key2.user_features

/-- hb_shape_plan_key_coords_equal: count equality, then memcmp of the
    coordinate arrays.  (The source declares its two parameters in swapped
    order, which is immaterial as the test is symmetric.) -/
def hb_shape_plan_key_coords_equal (key1 key2 : hb_shape_plan_key_t) : Bool :=
  if key1.coords.length ≠ key2.coords.length then false
  else key1.coords == key2.coords

/-- hb_shape_plan_key_equal: properties, features, coords, and shaper_func.
    The shaper_name field is not compared. -/
def hb_shape_plan_key_equal (key1 key2 : hb_shape_plan_key_t) : Bool :=
  hb_segment_properties_equal key1.props key2.props &&
  hb_shape_plan_key_user_features_equal key1 key2 &&
  hb_shape_plan_key_coords_equal key1 key2 &&
  (key1.shaper_func == key2.shaper_func)

/-- Key equality as the spec words it for C4: all four key components
    including the backend display name. -/
def specKeyEqual (key1 key2 : hb_shape_plan_key_t) : Prop :=
  key1.props = key2.props ∧
  key1.user_features = key2.user_features ∧
  key1.coords = key2.coords ∧
  key1.shaper_func = key2.shaper_func ∧
  key1.shaper_name = key2.shaper_name

instance (key1 key2 : hb_shape_plan_key_t) : Decidable (specKeyEqual key1 key2) := by
  unfold specKeyEqual; infer_instance

/-- hb_shape_plan_key_has_non_global_user_features: the scanning loop over
    the feature array, true as soon as one override's range differs from
    the global sentinels. -/
def hasNonGlobal : List hb_feature_t → Bool
  | [] => false
  | f :: rest =>
    if f.start ≠ HB_FEATURE_GLOBAL_START ∨ f.end_ ≠ HB_FEATURE_GLOBAL_END then true
    else hasNonGlobal rest

/-- hb_shape_plan_key_has_non_global_user_features on a key. -/
def hb_shape_plan_key_has_non_global_user_features (key : hb_shape_plan_key_t) : Bool :=
  hasNonGlobal key.user_features

/-- hb_shape_plan_key_has_coords: nonzero coordinate count. -/
def hb_shape_plan_key_has_coords (key : hb_shape_plan_key_t) : Bool :=
  decide (key.coords.length ≠ 0)

/-- hb_shape_plan_key_dont_cache: range-scoped features or coordinates. -/
def hb_shape_plan_key_dont_cache (key : hb_shape_plan_key_t) : Bool :=
  hb_shape_plan_key_has_non_global_user_features key || hb_shape_plan_key_has_coords key

/-- A font face: a pointer identity plus the inert flag consulted by
    hb_object_is_inert.  The immutability flag and the cache head live in
    the execution model, not here. -/
structure hb_face_t where
  faceId : Nat
  inert : Bool
deriving DecidableEq, Repr

/-- Modelled from the spec: hb_face_get_empty (hb-face, not in src/) returns
    the shared empty face, an inert Null object with identity 0. -/
def empty_face : hb_face_t := { faceId := 0, inert := true }

/-- A shape plan (hb_shape_plan_t): pointer identity, its key, the
    non-owning face identity (face_unsafe), and whether it is the inert
    Null object. -/
structure hb_shape_plan_t where
  planId : Nat
  key : hb_shape_plan_key_t
  face_unsafe : Nat
  inert : Bool
deriving DecidableEq, Repr

/-- Key of the process-wide inert plan: the Null object is zero-filled, so
    every field is the zero of its type. -/
def empty_key : hb_shape_plan_key_t :=
  { props := { script := 0, language := 0, direction := 0 },
    user_features := [], coords := [], shaper_func := 0, shaper_name := "" }

/-- The process-wide inert plan singleton (Null(hb_shape_plan_t)). -/
def empty_shape_plan : hb_shape_plan_t :=
  { planId := 0, key := empty_key, face_unsafe := 0, inert := true }

/-- hb_shape_plan_get_empty returns the inert singleton. -/
def hb_shape_plan_get_empty : hb_shape_plan_t := empty_shape_plan

/-- hb_shape_plan_reference: atomic refcount increment, returns the same
    identity.  The increment itself is recorded by callers (the referenced
    field of CachedResult). -/
def hb_shape_plan_reference (shape_plan : hb_shape_plan_t) : hb_shape_plan_t := shape_plan

/-- Modelled from the spec: the build-time shaper registry
    (hb-shaper-list.hh, not in src/) in fixed priority order, each entry a
    display name paired with the identity of its _hb_shaper_shape function;
    platform shapers first, the universal fallback last. -/
def shaperRegistry : List (String × Nat) :=
  [("graphite2", 1), ("ot", 2), ("fallback", 3)]

/-- Whether a requested shaper name is compiled in (the strcmp chain of the
    shaper_list loop), and if so which shape function it names. -/
def registryFunc (name : String) : Option Nat :=
  (shaperRegistry.find? (fun pr => pr.1 == name)).map (fun pr => pr.2)

/-- The shaper_list loop of hb_shape_plan_key_choose_shaper: walk the
    requested names in order; a name with no compiled-in match is skipped;
    the first compiled-in name whose face-data probe succeeds wins. -/
def chooseFromList (probe : String → Bool) : List String → Option (Nat × String)
  | [] => none
  | s :: rest =>
    match registryFunc s with
    | some f => if probe s then some (f, s) else chooseFromList probe rest
    | none => chooseFromList probe rest

/-- The registered-shapers loop of hb_shape_plan_key_choose_shaper: walk the
    registry in priority order and take the first shaper whose face-data
    probe succeeds. -/
def chooseFromRegistry (probe : String → Bool) : List (String × Nat) → Option (Nat × String)
  | [] => none
  | (s, f) :: rest => if probe s then some (f, s) else chooseFromRegistry probe rest

/-- Combined selection: the explicit list, when supplied, is tried first
    and falls through to the global registry scan. -/
def chooseShaperResult (probe : String → Bool)
    (shaper_list : Option (List String)) : Option (Nat × String) :=
  match shaper_list with
  | some l =>
    match chooseFromList probe l with
    | some r => some r
    | none => chooseFromRegistry probe shaperRegistry
  | none => chooseFromRegistry probe shaperRegistry

/-- hb_shape_plan_key_choose_shaper: record the chosen shaper's function and
    name into the key; if no probe succeeds the key is left unchanged. -/
def hb_shape_plan_key_choose_shaper (probe : String → Bool)
    (shaper_list : Option (List String))
    (key : hb_shape_plan_key_t) : hb_shape_plan_key_t :=
  match chooseShaperResult probe shaper_list with
  | some fn => { key with shaper_func := fn.1, shaper_name := fn.2 }
  | none => key

/-- Modelled from the spec: outcomes of collaborators that are outside this
    translation unit — success of each allocation site (calloc of the
    feature copy, the coordinate copy, the plan object, the cache node),
    success of ot.init0, and the per-shaper face-data probe.  The spec calls
    the probe idempotent and memoized, hence a pure function of the name. -/
structure Oracle where
  allocFeatures : Bool
  allocCoords : Bool
  allocPlan : Bool
  allocNode : Bool
  otInitOk : Bool
  probe : String → Bool

/-- The key both creation paths compute: fields from the request, shaper
    fields zero-initialized then resolved by choose_shaper. -/
def computedKey (probe : String → Bool) (props : hb_segment_properties_t)
    (user_features : List hb_feature_t) (coords : List Int)
    (shaper_list : Option (List String)) : hb_shape_plan_key_t :=
  hb_shape_plan_key_choose_shaper probe shaper_list
    { props := props, user_features := user_features, coords := coords,
      shaper_func := 0, shaper_name := "" }

/-- The bail label's provenance inside hb_shape_plan_create2. -/
inductive BailReason
  | nullProps
  | featuresAlloc
  | coordsAlloc
  | planAlloc
  | otInit
deriving DecidableEq, Repr

/-- The heap allocations hb_shape_plan_create2 performs. -/
inductive Alloc
  | featuresCopy
  | coordsCopy
  | planObject
deriving DecidableEq, Repr

/-- Observable ordering events inside plan creation: the
    hb_face_make_immutable call and the choose_shaper key computation. -/
inductive Event
  | makeImmutable
  | chooseShaper
deriving DecidableEq, Repr

/-- Outcome of one hb_shape_plan_create2 call: the returned plan, which
    allocations were made and which were freed again, the event trace, and
    whether (and why) the bail label was reached. -/
structure CreateResult where
  plan : hb_shape_plan_t
  allocated : List Alloc
  freed : List Alloc
  events : List Event
  bail : Option BailReason
deriving DecidableEq, Repr

/-- The feature-copy allocation, present only when features were requested. -/
def featAllocs (user_features : List hb_feature_t) : List Alloc :=
  if user_features = [] then [] else [Alloc.featuresCopy]

/-- The coordinate-copy allocation, present only when coords were requested. -/
def coordAllocs (coords : List Int) : List Alloc :=
  if coords = [] then [] else [Alloc.coordsCopy]

/-- Body of hb_shape_plan_create2 after the direction assertion, in source
    order: the (dead) null-props guard, the two calloc guards, the plan
    object allocation, face substitution and hb_face_make_immutable, key
    setup with choose_shaper, then ot.init0.  The bail label frees coords
    then features; on the otInit path the plan object is not freed. -/
def create2_body (oracle : Oracle) (face : Option hb_face_t)
    (props? : Option hb_segment_properties_t) (p : hb_segment_properties_t)
    (user_features : List hb_feature_t) (orig_coords : List Int)
    (shaper_list : Option (List String)) (pid : Nat) : CreateResult :=
  if props? = none then
    { plan := hb_shape_plan_get_empty, allocated := [], freed := [], events := [],
      bail := some BailReason.nullProps }
  else if user_features ≠ [] ∧ oracle.allocFeatures = false then
    { plan := hb_shape_plan_get_empty, allocated := [], freed := [], events := [],
      bail := some BailReason.featuresAlloc }
  else if orig_coords ≠ [] ∧ oracle.allocCoords = false then
    { plan := hb_shape_plan_get_empty, allocated := featAllocs user_features,
      freed := featAllocs user_features, events := [],
      bail := some BailReason.coordsAlloc }
  else if oracle.allocPlan = false then
    { plan := hb_shape_plan_get_empty,
      allocated := featAllocs user_features ++ coordAllocs orig_coords,
      freed := coordAllocs orig_coords ++ featAllocs user_features, events := [],
      bail := some BailReason.planAlloc }
  else if oracle.otInitOk = false then
    { plan := hb_shape_plan_get_empty,
      allocated := featAllocs user_features ++ coordAllocs orig_coords ++ [Alloc.planObject],
      freed := coordAllocs orig_coords ++ featAllocs user_features,
      events := [Event.makeImmutable, Event.chooseShaper],
      bail := some BailReason.otInit }
  else
    { plan := { planId := pid,
                key := computedKey oracle.probe p user_features orig_coords shaper_list,
                face_unsafe := (face.getD empty_face).faceId, inert := false },
      allocated := featAllocs user_features ++ coordAllocs orig_coords ++ [Alloc.planObject],
      freed := [], events := [Event.makeImmutable, Event.chooseShaper], bail := none }

/-- hb_shape_plan_create2.  The direction assertion dereferences props
    before anything else, so a null props (none) is a fatal fault, modelled
    as none, as is an invalid direction; otherwise the body runs. -/
def hb_shape_plan_create2 (oracle : Oracle) (face : Option hb_face_t)
    (props? : Option hb_segment_properties_t)
    (user_features : List hb_feature_t) (orig_coords : List Int)
    (shaper_list : Option (List String)) (pid : Nat) : Option CreateResult :=
  match props? with
  | none => none
  | some p =>
    if p.direction = HB_DIRECTION_INVALID then none
    else some (create2_body oracle face props? p user_features orig_coords shaper_list pid)

/-- HB_BUFFER_CONTENT_TYPE_UNICODE (hb-buffer.h, value 1). -/
def HB_BUFFER_CONTENT_TYPE_UNICODE : Nat := 1

/-- Modelled from the spec: the Buffer collaborator exposes an element
    count, a finalized/immutability flag, a content-kind flag and segment
    properties. -/
structure hb_buffer_t where
  len : Nat
  immutable : Bool
  content_type : Nat
  props : hb_segment_properties_t
deriving DecidableEq, Repr

/-- Modelled from the spec: the Font collaborator exposes its associated
    Face identity; its lazy per-shaper font-data setup is an oracle
    argument of execute. -/
structure hb_font_t where
  faceId : Nat
deriving DecidableEq, Repr

/-- Outcome of one hb_shape_plan_execute call: the boolean result, whether
    some shaper's shape operation ran, and whether a font-data ensure was
    invoked (the only possible side effect on the font). -/
structure ExecResult where
  ret : Bool
  backendInvoked : Bool
  fontEnsureInvoked : Bool
deriving DecidableEq, Repr

/-- hb_shape_plan_execute, in source order: the zero-length early success,
    the two buffer assertions (fatal, modelled as none), the inert-plan
    failure return, the face and properties assertions, then the dispatch
    chain matching key.shaper_func against each compiled shaper, which
    ensures the font data and runs the shape function; an unmatched func
    falls through to false. -/
def hb_shape_plan_execute (fontDataEnsure : String → Bool)
    (shaperShape : String → List hb_feature_t → Bool)
    (shape_plan : hb_shape_plan_t) (font : hb_font_t) (buffer : hb_buffer_t)
    (features : List hb_feature_t) : Option ExecResult :=
  if buffer.len = 0 then
    some { ret := true, backendInvoked := false, fontEnsureInvoked := false }
  else if buffer.immutable = true then none
  else if buffer.content_type ≠ HB_BUFFER_CONTENT_TYPE_UNICODE then none
  else if shape_plan.inert = true then
    some { ret := false, backendInvoked := false, fontEnsureInvoked := false }
  else if shape_plan.face_unsafe ≠ font.faceId then none
  else if hb_segment_properties_equal shape_plan.key.props buffer.props = false then none
  else
    match shaperRegistry.find? (fun pr => pr.2 == shape_plan.key.shaper_func) with
    | some pr =>
      if fontDataEnsure pr.1 then
        some { ret := shaperShape pr.1 features, backendInvoked := true, fontEnsureInvoked := true }
      else
        some { ret := false, backendInvoked := false, fontEnsureInvoked := true }
    | none => some { ret := false, backendInvoked := false, fontEnsureInvoked := false }

/-- Outcome of one hb_shape_plan_create_cached2 call against a given cache
    list: the returned plan, the cache afterwards, whether a fresh plan was
    built (hb_shape_plan_create2 ran), whether it was published by the CAS,
    the identities passed to hb_shape_plan_reference, and the event trace. -/
structure CachedResult where
  plan : hb_shape_plan_t
  cache : List hb_shape_plan_t
  builtNew : Bool
  published : Bool
  referenced : List Nat
  events : List Event
deriving DecidableEq, Repr

/-- The cache scan: first node (head-first) whose plan key equals the
    searched key, per hb_shape_plan_key_equal. -/
def cacheLookup (key : hb_shape_plan_key_t) : List hb_shape_plan_t → Option hb_shape_plan_t
  | [] => none
  | node :: rest =>
    if hb_shape_plan_key_equal node.key key then some node else cacheLookup key rest

/-- The dont_cache test of hb_shape_plan_create_cached2: the key-level test
    plus hb_object_is_inert on the face. -/
def cachedDontCache (oracle : Oracle) (face : hb_face_t) (props : hb_segment_properties_t)
    (user_features : List hb_feature_t) (coords : List Int)
    (shaper_list : Option (List String)) : Bool :=
  hb_shape_plan_key_dont_cache (computedKey oracle.probe props user_features coords shaper_list) ||
  face.inert

/-- Cache-hit outcome: the found plan is referenced and returned, nothing
    is built and the cache is unchanged. -/
def hitResult (cache : List hb_shape_plan_t) (hit : hb_shape_plan_t) : CachedResult :=
  { plan := hb_shape_plan_reference hit, cache := cache, builtNew := false,
    published := false, referenced := [hit.planId], events := [Event.chooseShaper] }

/-- Uncached outcome (dont_cache, or node calloc failure): the fresh plan is
    returned directly, the cache is unchanged, no reference is taken. -/
def uncachedResult (cache : List hb_shape_plan_t) (cres : CreateResult) : CachedResult :=
  { plan := cres.plan, cache := cache, builtNew := true, published := false,
    referenced := [], events := Event.chooseShaper :: cres.events }

/-- Published outcome: the fresh plan's node is CAS-inserted at the head and
    the plan is referenced and returned. -/
def publishResult (cache : List hb_shape_plan_t) (cres : CreateResult) : CachedResult :=
  { plan := hb_shape_plan_reference cres.plan, cache := cres.plan :: cache,
    builtNew := true, published := true, referenced := [cres.plan.planId],
    events := Event.chooseShaper :: cres.events }

/-- hb_shape_plan_create_cached2 for one call with no interference: the key
    is computed (choose_shaper) first, the head is read, dont_cache decides
    whether to scan, a hit is referenced and returned, otherwise create2
    builds a plan which is returned directly when dont_cache or when the
    node calloc fails, else the CAS publishes it — with no concurrent
    writer the CAS succeeds on the first try, so the retry loop runs once
    (the concurrent CAS is the CacheStep relation below). -/
def hb_shape_plan_create_cached2 (oracle : Oracle) (face : hb_face_t)
    (props : hb_segment_properties_t) (user_features : List hb_feature_t)
    (coords : List Int) (shaper_list : Option (List String)) (pid : Nat)
    (cache : List hb_shape_plan_t) : Option CachedResult :=
  match cond (cachedDontCache oracle face props user_features coords shaper_list) none
          (cacheLookup (computedKey oracle.probe props user_features coords shaper_list)
            cache) with
  | some hit => some (hitResult cache hit)
  | none =>
    match hb_shape_plan_create2 oracle (some face) (some props) user_features coords
            shaper_list pid with
    | none => none
    | some cres =>
      cond (cachedDontCache oracle face props user_features coords shaper_list)
        (some (uncachedResult cache cres))
        (cond oracle.allocNode (some (publishResult cache cres))
          (some (uncachedResult cache cres)))

/-- True when a chooseShaper event occurs before any makeImmutable event in
    a trace. -/
def choosesBeforeImmutable : List Event → Bool
  | [] => false
  | Event.makeImmutable :: _ => false
  | Event.chooseShaper :: _ => true

/-- Concrete segment properties used by witnesses and counterexamples. -/
def props1 : hb_segment_properties_t :=
  { script := 1, language := 2, direction := HB_DIRECTION_LTR }

/-- A second set of segment properties, differing in script. -/
def props2 : hb_segment_properties_t :=
  { script := 2, language := 2, direction := HB_DIRECTION_LTR }

/-- A key resolved to the ot shaper. -/
def keyA : hb_shape_plan_key_t :=
  { props := props1, user_features := [], coords := [], shaper_func := 2, shaper_name := "ot" }

/-- The same key except for the shaper display name. -/
def keyB : hb_shape_plan_key_t :=
  { props := props1, user_features := [], coords := [], shaper_func := 2,
    shaper_name := "graphite2" }

/-- Oracle in which every allocation and the backend setup succeed and
    every probe succeeds. -/
def oracleAll : Oracle :=
  { allocFeatures := true, allocCoords := true, allocPlan := true, allocNode := true,
    otInitOk := true, probe := fun _ => true }

/-- Oracle in which only ot.init0 fails. -/
def oracleInitFail : Oracle :=
  { allocFeatures := true, allocCoords := true, allocPlan := true, allocNode := true,
    otInitOk := false, probe := fun _ => true }

/-- Oracle in which only the cache-node calloc fails. -/
def oracleNoNode : Oracle :=
  { allocFeatures := true, allocCoords := true, allocPlan := true, allocNode := false,
    otInitOk := true, probe := fun _ => true }

/-- A live (non-inert) face. -/
def face1 : hb_face_t := { faceId := 1, inert := false }

/-- A global feature override (applies to the whole buffer). -/
def featGlobal : hb_feature_t :=
  { tag := 100, value := 1, start := HB_FEATURE_GLOBAL_START, end_ := HB_FEATURE_GLOBAL_END }

/-- A range-scoped feature override (characters 2 to 5). -/
def featRange : hb_feature_t :=
  { tag := 100, value := 1, start := 2, end_ := 5 }

/-- A mutable Unicode buffer with zero elements. -/
def bufEmpty : hb_buffer_t :=
  { len := 0, immutable := false, content_type := HB_BUFFER_CONTENT_TYPE_UNICODE,
    props := props1 }

/-- A mutable Unicode buffer with three elements. -/
def buf3 : hb_buffer_t :=
  { len := 3, immutable := false, content_type := HB_BUFFER_CONTENT_TYPE_UNICODE,
    props := props1 }

/-- A font on face1. -/
def font1 : hb_font_t := { faceId := 1 }

/-- The CreateResult of a fully successful creation used by the C10 witness. -/
def c10res : CreateResult :=
  create2_body oracleAll (some face1) (some props1) props1 [] [] none 3

/-- The failed creation used by the C9 witness. -/
def c9cres : CreateResult :=
  create2_body oracleInitFail (some face1) (some props1) props1 [] [] none 9

/-- The cached-creation outcome publishing the inert sentinel (C9 witness). -/
def c9res : CachedResult := publishResult [] c9cres

/-- The uncached outcome on a range-scoped request (C2 witness). -/
def c2wres : CachedResult :=
  uncachedResult [] (create2_body oracleAll (some face1) (some props1) props1 [featRange] [] none 5)

/-- The successful creation of the first C3 call. -/
def c3cres : CreateResult :=
  create2_body oracleAll (some face1) (some props1) props1 [] [] none 31

/-- The first C3 call's outcome: its plan is published. -/
def c3r1 : CachedResult := publishResult [] c3cres

/-- The second C3 call's outcome: a hit on the published plan. -/
def c3r2 : CachedResult := hitResult (c3cres.plan :: []) c3cres.plan

/-- The CreateResult of the C8 witness for the create path. -/
def c8cres : CreateResult :=
  create2_body oracleAll (some face1) (some props1) props1 [] [] none 41

/-- The CachedResult of the C8 witness for the createCached path. -/
def c8res : CachedResult :=
  publishResult [] (create2_body oracleAll (some face1) (some props1) props1 [] [] none 21)

/-- One successful CAS insertion on a face's cache list — the concurrent
    abstraction of the retry loop for any number of interleaved
    createCached calls.  A successful compare-and-swap means the head still
    equals the snapshot the inserting thread scanned (nodes are never
    removed while the face lives and every insertion is a fresh node, so
    equal head pointers mean the same list and ABA cannot occur), the scan
    over that snapshot missed the thread's computed key, and the thread's
    freshly created plan — the outcome of hb_shape_plan_create2 for its
    request — is pushed at the head.  Cache hits, non-cacheable requests,
    node-allocation failures and failed CAS attempts leave the list
    unchanged and are therefore not steps. -/
inductive CacheStep (cache : List hb_shape_plan_t) : List hb_shape_plan_t → Prop
  | cas (oracle : Oracle) (face : hb_face_t) (p : hb_segment_properties_t)
      (user_features : List hb_feature_t) (coords : List Int)
      (shaper_list : Option (List String)) (pid : Nat) (cres : CreateResult)
      (hdc : cachedDontCache oracle face p user_features coords shaper_list = false)
      (hmiss : cacheLookup (computedKey oracle.probe p user_features coords shaper_list)
                 cache = none)
      (hcreate : hb_shape_plan_create2 oracle (some face) (some p) user_features coords
                   shaper_list pid = some cres) :
      CacheStep cache (cres.plan :: cache)

/-- Cache lists reachable from a face's initially empty cache through
    successful CAS insertions. -/
inductive CacheReachable : List hb_shape_plan_t → Prop
  | init : CacheReachable []
  | step (c c' : List hb_shape_plan_t) :
      CacheReachable c → CacheStep c c' → CacheReachable c'

/-- Number of reachable cache nodes whose plan's key equals k, per the
    program's own key-equality test. -/
def countMatching (cache : List hb_shape_plan_t) (k : hb_shape_plan_key_t) : Nat :=
  (cache.filter (fun q => hb_shape_plan_key_equal q.key k)).length

/-- Number of reachable cache nodes wrapping a non-inert plan whose key
    equals k. -/
def countNonInertMatching (cache : List hb_shape_plan_t) (k : hb_shape_plan_key_t) : Nat :=
  (cache.filter (fun q => !q.inert && hb_shape_plan_key_equal q.key k)).length

/-- The failed creation inserted by the first step of the C1 trace. -/
def c1cres1 : CreateResult :=
  create2_body oracleInitFail (some face1) (some props1) props1 [] [] none 11

/-- The failed creation inserted by the second step of the C1 trace. -/
def c1cres2 : CreateResult :=
  create2_body oracleInitFail (some face1) (some props2) props2 [] [] none 12

/- Helper lemmas. -/

theorem hb_segment_properties_equal_iff (a b : hb_segment_properties_t) :
    hb_segment_properties_equal a b = true ↔ a = b := by
  obtain ⟨s, l, d⟩ := a
  obtain ⟨s', l', d'⟩ := b
  simp [hb_segment_properties_equal, and_assoc]

theorem hb_shape_plan_key_user_features_equal_iff (key1 key2 : hb_shape_plan_key_t) :
    hb_shape_plan_key_user_features_equal key1 key2 = true ↔
      key1.user_features = key2.user_features := by
  unfold hb_shape_plan_key_user_features_equal
  split
  · constructor
    · intro h; exact absurd h (by simp)
    · intro h; simp_all
  · simp

theorem hb_shape_plan_key_coords_equal_iff (key1 key2 : hb_shape_plan_key_t) :
    hb_shape_plan_key_coords_equal key1 key2 = true ↔ key1.coords = key2.coords := by
  unfold hb_shape_plan_key_coords_equal
  split
  · constructor
    · intro h; exact absurd h (by simp)
    · intro h; simp_all
  · simp

theorem hb_shape_plan_key_equal_iff (key1 key2 : hb_shape_plan_key_t) :
    hb_shape_plan_key_equal key1 key2 = true ↔
      (key1.props = key2.props ∧ key1.user_features = key2.user_features ∧
       key1.coords = key2.coords ∧ key1.shaper_func = key2.shaper_func) := by
  unfold hb_shape_plan_key_equal
  rw [Bool.and_eq_true, Bool.and_eq_true, Bool.and_eq_true]
  rw [hb_segment_properties_equal_iff, hb_shape_plan_key_user_features_equal_iff,
      hb_shape_plan_key_coords_equal_iff]
  simp [and_assoc]

theorem hb_shape_plan_key_equal_refl (key : hb_shape_plan_key_t) :
    hb_shape_plan_key_equal key key = true := by
  rw [hb_shape_plan_key_equal_iff]
  exact ⟨rfl, rfl, rfl, rfl⟩

/-- Every terminating branch of create2_body either succeeds with no bail
    and the fully initialized plan, or bails with the inert plan. -/
theorem create2_body_spec (oracle : Oracle) (face : Option hb_face_t)
    (props? : Option hb_segment_properties_t) (p : hb_segment_properties_t)
    (user_features : List hb_feature_t) (orig_coords : List Int)
    (shaper_list : Option (List String)) (pid : Nat) :
    ((create2_body oracle face props? p user_features orig_coords shaper_list pid).bail = none ∧
     (create2_body oracle face props? p user_features orig_coords shaper_list pid).plan =
       { planId := pid,
         key := computedKey oracle.probe p user_features orig_coords shaper_list,
         face_unsafe := (face.getD empty_face).faceId, inert := false }) ∨
    ((create2_body oracle face props? p user_features orig_coords shaper_list pid).bail ≠ none ∧
     (create2_body oracle face props? p user_features orig_coords shaper_list pid).plan =
       empty_shape_plan) := by
  unfold create2_body
  split
  · exact Or.inr ⟨by simp, rfl⟩
  split
  · exact Or.inr ⟨by simp, rfl⟩
  split
  · exact Or.inr ⟨by simp, rfl⟩
  split
  · exact Or.inr ⟨by simp, rfl⟩
  split
  · exact Or.inr ⟨by simp, rfl⟩
  · exact Or.inl ⟨rfl, rfl⟩

/-- Lifting of create2_body_spec through hb_shape_plan_create2 when a face
    and valid properties are supplied. -/
theorem create2_some_spec (oracle : Oracle) (face : hb_face_t)
    (p : hb_segment_properties_t) (user_features : List hb_feature_t)
    (orig_coords : List Int) (shaper_list : Option (List String)) (pid : Nat)
    (r : CreateResult)
    (h : hb_shape_plan_create2 oracle (some face) (some p) user_features orig_coords
           shaper_list pid = some r) :
    (r.bail = none ∧ r.plan =
       { planId := pid,
         key := computedKey oracle.probe p user_features orig_coords shaper_list,
         face_unsafe := face.faceId, inert := false }) ∨
    (r.bail ≠ none ∧ r.plan = empty_shape_plan) := by
  rw [hb_shape_plan_create2] at h
  split at h
  · exact absurd h (by simp)
  · rw [Option.some.injEq] at h
    subst h
    have hs := create2_body_spec oracle (some face) (some p) p user_features orig_coords
      shaper_list pid
    simpa using hs

/-- The events of any hb_shape_plan_create2 run are either empty (early
    bail) or makeImmutable followed by chooseShaper. -/
theorem create2_events_shape (oracle : Oracle) (face : Option hb_face_t)
    (props? : Option hb_segment_properties_t) (user_features : List hb_feature_t)
    (orig_coords : List Int) (shaper_list : Option (List String)) (pid : Nat)
    (r : CreateResult)
    (h : hb_shape_plan_create2 oracle face props? user_features orig_coords shaper_list pid =
           some r) :
    r.events = [] ∨ r.events = [Event.makeImmutable, Event.chooseShaper] := by
  match props? with
  | none => exact absurd h (by simp [hb_shape_plan_create2])
  | some p =>
    rw [hb_shape_plan_create2] at h
    split at h
    · exact absurd h (by simp)
    · rw [Option.some.injEq] at h
      subst h
      unfold create2_body
      split
      · exact Or.inl rfl
      split
      · exact Or.inl rfl
      split
      · exact Or.inl rfl
      split
      · exact Or.inl rfl
      split
      · exact Or.inr rfl
      · exact Or.inr rfl

/-- The four outcome shapes of a single hb_shape_plan_create_cached2 call. -/
theorem cached2_cases (oracle : Oracle) (face : hb_face_t) (p : hb_segment_properties_t)
    (user_features : List hb_feature_t) (coords : List Int)
    (shaper_list : Option (List String)) (pid : Nat) (cache : List hb_shape_plan_t)
    (r : CachedResult)
    (h : hb_shape_plan_create_cached2 oracle face p user_features coords shaper_list pid
           cache = some r) :
    (∃ hit, cachedDontCache oracle face p user_features coords shaper_list = false ∧
       cacheLookup (computedKey oracle.probe p user_features coords shaper_list) cache =
         some hit ∧
       r = hitResult cache hit) ∨
    (∃ cres, hb_shape_plan_create2 oracle (some face) (some p) user_features coords
         shaper_list pid = some cres ∧
       cachedDontCache oracle face p user_features coords shaper_list = true ∧
       r = uncachedResult cache cres) ∨
    (∃ cres, hb_shape_plan_create2 oracle (some face) (some p) user_features coords
         shaper_list pid = some cres ∧
       cachedDontCache oracle face p user_features coords shaper_list = false ∧
       cacheLookup (computedKey oracle.probe p user_features coords shaper_list) cache =
         none ∧
       oracle.allocNode = false ∧ r = uncachedResult cache cres) ∨
    (∃ cres, hb_shape_plan_create2 oracle (some face) (some p) user_features coords
         shaper_list pid = some cres ∧
       cachedDontCache oracle face p user_features coords shaper_list = false ∧
       cacheLookup (computedKey oracle.probe p user_features coords shaper_list) cache =
         none ∧
       oracle.allocNode = true ∧ r = publishResult cache cres) := by
  have hD := Bool.eq_false_or_eq_true
    (cachedDontCache oracle face p user_features coords shaper_list)
  have hn := Bool.eq_false_or_eq_true oracle.allocNode
  rw [hb_shape_plan_create_cached2] at h
  rcases hD with hD | hD
  · rw [hD] at h
    simp only [Bool.cond_true] at h
    cases hc : hb_shape_plan_create2 oracle (some face) (some p) user_features coords
        shaper_list pid with
    | none => rw [hc] at h; exact absurd h (by simp)
    | some cres =>
      rw [hc] at h
      simp only [Option.some.injEq] at h
      exact Or.inr (Or.inl ⟨cres, rfl, hD, h.symm⟩)
  · rw [hD] at h
    simp only [Bool.cond_false] at h
    cases hl : cacheLookup (computedKey oracle.probe p user_features coords shaper_list)
        cache with
    | some hit =>
      rw [hl] at h
      simp only [Option.some.injEq] at h
      exact Or.inl ⟨hit, hD, rfl, h.symm⟩
    | none =>
      rw [hl] at h
      cases hc : hb_shape_plan_create2 oracle (some face) (some p) user_features coords
          shaper_list pid with
      | none => rw [hc] at h; exact absurd h (by simp)
      | some cres =>
        rw [hc] at h
        rcases hn with hn | hn
        · rw [hn] at h
          simp only [Bool.cond_true, Option.some.injEq] at h
          exact Or.inr (Or.inr (Or.inr ⟨cres, rfl, hD, rfl, hn, h.symm⟩))
        · rw [hn] at h
          simp only [Bool.cond_false, Option.some.injEq] at h
          exact Or.inr (Or.inr (Or.inl ⟨cres, rfl, hD, rfl, hn, h.symm⟩))

/-- The dont_cache decision unfolded into the spec's three conditions. -/
theorem cachedDontCache_iff (oracle : Oracle) (face : hb_face_t)
    (p : hb_segment_properties_t) (user_features : List hb_feature_t)
    (coords : List Int) (shaper_list : Option (List String)) :
    cachedDontCache oracle face p user_features coords shaper_list = true ↔
      (hb_shape_plan_key_has_non_global_user_features
         (computedKey oracle.probe p user_features coords shaper_list) = true ∨
       hb_shape_plan_key_has_coords
         (computedKey oracle.probe p user_features coords shaper_list) = true ∨
       face.inert = true) := by
  unfold cachedDontCache hb_shape_plan_key_dont_cache
  simp [Bool.or_eq_true, or_assoc]

/- Claim theorems. -/

/-- C4 counterexample: two keys that differ only in the backend display name
    are reported equal by hb_shape_plan_key_equal, so the claimed iff (which
    requires the display name to match) is false: the test never consults
    shaper_name. -/
theorem key_equal_ignores_shaper_name :
    hb_shape_plan_key_equal keyA keyB = true ∧ ¬ specKeyEqual keyA keyB := by
  constructor
  · decide
  · decide

/-- C4 amended: the key-equality test returns true iff the segment
    properties are equal, the feature sequences are element-wise equal, the
    coordinate sequences are element-wise equal, and the backend function
    reference matches; the backend display name is not compared. -/
theorem key_equal_iff_components_without_name (key1 key2 : hb_shape_plan_key_t) :
    hb_shape_plan_key_equal key1 key2 = true ↔
      (key1.props = key2.props ∧ key1.user_features = key2.user_features ∧
       key1.coords = key2.coords ∧ key1.shaper_func = key2.shaper_func) :=
  hb_shape_plan_key_equal_iff key1 key2

/-- C5, evaluated at the failing input: with every allocation succeeding
    but ot.init0 failing, hb_shape_plan_create2 reaches the bail label and
    returns the inert plan, but while the feature copy is freed, the plan
    object allocation is not released — the claimed cleanup of all partial
    allocations does not happen on the backend-initialization failure
    path. -/
theorem create2_otinit_failure_leaks_plan_object :
    hb_shape_plan_create2 oracleInitFail (some face1) (some props1) [featGlobal] [] none 7 =
      some { plan := empty_shape_plan,
             allocated := [Alloc.featuresCopy, Alloc.planObject],
             freed := [Alloc.featuresCopy],
             events := [Event.makeImmutable, Event.chooseShaper],
             bail := some BailReason.otInit } ∧
    Alloc.planObject ∈ [Alloc.featuresCopy, Alloc.planObject] ∧
    Alloc.planObject ∉ [Alloc.featuresCopy] := by
  refine ⟨by decide, by decide, by decide⟩

/-- C10: calling hb_shape_plan_create2 with absent properties is a fatal
    fault (the direction assertion dereferences the null pointer before the
    null-props guard runs), and no run ever returns through the null-props
    bail branch — that recoverable guard is dead code. -/
theorem null_props_guard_never_taken :
    (∀ (oracle : Oracle) (face : Option hb_face_t) (user_features : List hb_feature_t)
       (orig_coords : List Int) (shaper_list : Option (List String)) (pid : Nat),
       hb_shape_plan_create2 oracle face none user_features orig_coords shaper_list pid = none) ∧
    (∀ (oracle : Oracle) (face : Option hb_face_t) (props? : Option hb_segment_properties_t)
       (user_features : List hb_feature_t) (orig_coords : List Int)
       (shaper_list : Option (List String)) (pid : Nat) (r : CreateResult),
       hb_shape_plan_create2 oracle face props? user_features orig_coords shaper_list pid = some r →
       r.bail ≠ some BailReason.nullProps) := by
  constructor
  · intro oracle face user_features orig_coords shaper_list pid
    rfl
  · intro oracle face props? user_features orig_coords shaper_list pid r h
    match props? with
    | none => exact absurd h (by simp [hb_shape_plan_create2])
    | some p =>
      rw [hb_shape_plan_create2] at h
      split at h
      · exact absurd h (by simp)
      · rw [Option.some.injEq] at h
        subst h
        unfold create2_body
        split
        · simp_all
        all_goals (split <;> try simp)
        all_goals (split <;> try simp)
        all_goals (split <;> try simp)
        all_goals (split <;> simp)

/-- Witness for C10 at a concrete input. -/
theorem null_props_guard_never_taken_witness :
    hb_shape_plan_create2 oracleAll (some face1) none [] [] none 3 = none ∧
    c10res.bail ≠ some BailReason.nullProps :=
  ⟨null_props_guard_never_taken.1 oracleAll (some face1) [] [] none 3,
   null_props_guard_never_taken.2 oracleAll (some face1) (some props1) [] [] none 3 c10res
     (by decide)⟩

/-- C7: a zero-element buffer makes execute succeed immediately — true is
    returned, no shaper is invoked and no font data is touched — whatever
    the plan, font, features, or collaborator outcomes. -/
theorem execute_empty_buffer_returns_true_no_backend
    (fontDataEnsure : String → Bool) (shaperShape : String → List hb_feature_t → Bool)
    (shape_plan : hb_shape_plan_t)
    (font : hb_font_t) (buffer : hb_buffer_t) (features : List hb_feature_t)
    (h : buffer.len = 0) :
    hb_shape_plan_execute fontDataEnsure shaperShape shape_plan font buffer features =
      some { ret := true, backendInvoked := false, fontEnsureInvoked := false } := by
  unfold hb_shape_plan_execute
  rw [if_pos h]

/-- Witness for C7 at a concrete input. -/
theorem execute_empty_buffer_returns_true_no_backend_witness :
    hb_shape_plan_execute (fun _ => true) (fun _ _ => true) empty_shape_plan font1 bufEmpty [] =
      some { ret := true, backendInvoked := false, fontEnsureInvoked := false } :=
  execute_empty_buffer_returns_true_no_backend
    (fun _ => true) (fun _ _ => true) empty_shape_plan font1 bufEmpty [] rfl

/-- C6 counterexample: executing the inert sentinel plan with a zero-element
    buffer returns true, not the claimed failure — the zero-length early
    return precedes the inert-plan check. -/
theorem execute_inert_plan_empty_buffer_returns_true :
    empty_shape_plan.inert = true ∧
    hb_shape_plan_execute (fun _ => true) (fun _ _ => true) empty_shape_plan font1 bufEmpty [] =
      some { ret := true, backendInvoked := false, fontEnsureInvoked := false } := by
  refine ⟨by decide, by decide⟩

/-- C6 amended: for every execute call whose plan is the inert sentinel and
    whose buffer is non-empty (and in the mutable, pre-shaping state the
    buffer assertions demand), the call returns false with no side effects:
    no shaper is invoked and no font data is touched.  With an empty buffer
    execute instead returns true before the inert check. -/
theorem execute_inert_plan_nonempty_buffer_returns_false
    (fontDataEnsure : String → Bool) (shaperShape : String → List hb_feature_t → Bool)
    (shape_plan : hb_shape_plan_t)
    (font : hb_font_t) (buffer : hb_buffer_t) (features : List hb_feature_t)
    (hlen : buffer.len ≠ 0) (hmut : buffer.immutable = false)
    (hct : buffer.content_type = HB_BUFFER_CONTENT_TYPE_UNICODE)
    (hinert : shape_plan.inert = true) :
    hb_shape_plan_execute fontDataEnsure shaperShape shape_plan font buffer features =
      some { ret := false, backendInvoked := false, fontEnsureInvoked := false } := by
  unfold hb_shape_plan_execute
  rw [if_neg hlen, if_neg (by simp [hmut]), if_neg (by simp [hct]), if_pos hinert]

/-- Witness for the amended C6 at a concrete input. -/
theorem execute_inert_plan_nonempty_buffer_returns_false_witness :
    hb_shape_plan_execute (fun _ => true) (fun _ _ => true) empty_shape_plan font1 buf3 [] =
      some { ret := false, backendInvoked := false, fontEnsureInvoked := false } :=
  execute_inert_plan_nonempty_buffer_returns_false
    (fun _ => true) (fun _ _ => true) empty_shape_plan font1 buf3 []
    (by decide) (by decide) (by decide) (by decide)

/-- C2 counterexample: a fully cacheable request (no range-scoped feature,
    no coordinates, live face) whose cache-node calloc fails is returned
    freshly built, uncached, with the cache untouched — the claimed iff
    fails in the only-if direction. -/
theorem uncached_on_node_alloc_failure :
    (hb_shape_plan_create_cached2 oracleNoNode face1 props1 [] [] none 5 []).map
        (fun r => (r.builtNew, r.published, r.cache)) = some (true, false, []) ∧
    hb_shape_plan_key_dont_cache (computedKey oracleNoNode.probe props1 [] [] none) = false ∧
    face1.inert = false := by
  refine ⟨by decide, by decide, by decide⟩

/-- C2 amended: a createCached request yields the freshly built plan
    directly with the cache left unchanged iff the request is
    non-cacheable (a range-scoped feature, nonzero coordinates, or an
    inert face) or the cache scan misses and the cache-node allocation
    fails; otherwise the computed key is looked up and, on a miss with the
    node allocation succeeding, the fresh plan is published. -/
theorem not_cached_iff_dont_cache_or_node_alloc_failure
    (oracle : Oracle) (face : hb_face_t) (p : hb_segment_properties_t)
    (user_features : List hb_feature_t) (coords : List Int)
    (shaper_list : Option (List String)) (pid : Nat) (cache : List hb_shape_plan_t)
    (r : CachedResult)
    (h : hb_shape_plan_create_cached2 oracle face p user_features coords shaper_list pid
           cache = some r) :
    (r.builtNew = true ∧ r.published = false ∧ r.cache = cache) ↔
      (hb_shape_plan_key_has_non_global_user_features
         (computedKey oracle.probe p user_features coords shaper_list) = true ∨
       hb_shape_plan_key_has_coords
         (computedKey oracle.probe p user_features coords shaper_list) = true ∨
       face.inert = true ∨
       (cacheLookup (computedKey oracle.probe p user_features coords shaper_list) cache =
          none ∧
        oracle.allocNode = false)) := by
  rcases cached2_cases oracle face p user_features coords shaper_list pid cache r h with
    ⟨hit, hD, hl, hr⟩ | ⟨cres, _, hD, hr⟩ | ⟨cres, _, hD, hl, hn, hr⟩ |
    ⟨cres, _, hD, hl, hn, hr⟩
  · subst hr
    constructor
    · intro hx
      exact absurd hx.1 (by simp [hitResult])
    · intro hx
      rcases hx with hx | hx | hx | hx
      · exact absurd ((cachedDontCache_iff oracle face p user_features coords
          shaper_list).mpr (Or.inl hx)) (by simp [hD])
      · exact absurd ((cachedDontCache_iff oracle face p user_features coords
          shaper_list).mpr (Or.inr (Or.inl hx))) (by simp [hD])
      · exact absurd ((cachedDontCache_iff oracle face p user_features coords
          shaper_list).mpr (Or.inr (Or.inr hx))) (by simp [hD])
      · rw [hx.1] at hl; exact absurd hl (by simp)
  · subst hr
    constructor
    · intro _
      have := (cachedDontCache_iff oracle face p user_features coords shaper_list).mp hD
      tauto
    · intro _
      exact ⟨rfl, rfl, rfl⟩
  · subst hr
    constructor
    · intro _
      exact Or.inr (Or.inr (Or.inr ⟨hl, hn⟩))
    · intro _
      exact ⟨rfl, rfl, rfl⟩
  · subst hr
    constructor
    · intro hx
      have hcc : cres.plan :: cache = cache := hx.2.2
      exact absurd hcc (List.cons_ne_self _ _)
    · intro hx
      rcases hx with hx | hx | hx | hx
      · exact absurd ((cachedDontCache_iff oracle face p user_features coords
          shaper_list).mpr (Or.inl hx)) (by simp [hD])
      · exact absurd ((cachedDontCache_iff oracle face p user_features coords
          shaper_list).mpr (Or.inr (Or.inl hx))) (by simp [hD])
      · exact absurd ((cachedDontCache_iff oracle face p user_features coords
          shaper_list).mpr (Or.inr (Or.inr hx))) (by simp [hD])
      · rw [hx.2] at hn; exact absurd hn (by simp)

/-- Witness for the amended C2 at a concrete input (a range-scoped
    feature). -/
theorem not_cached_iff_dont_cache_or_node_alloc_failure_witness :
    (c2wres.builtNew = true ∧ c2wres.published = false ∧ c2wres.cache = []) ↔
      (hb_shape_plan_key_has_non_global_user_features
         (computedKey oracleAll.probe props1 [featRange] [] none) = true ∨
       hb_shape_plan_key_has_coords
         (computedKey oracleAll.probe props1 [featRange] [] none) = true ∨
       face1.inert = true ∨
       (cacheLookup (computedKey oracleAll.probe props1 [featRange] [] none) [] = none ∧
        oracleAll.allocNode = false)) :=
  not_cached_iff_dont_cache_or_node_alloc_failure oracleAll face1 props1 [featRange] [] none
    5 [] c2wres (by decide)

/-- C3: a createCached call that finds a previously published entry for the
    same request (same face, properties, all-global features, no coords,
    same oracle outcomes, hence the same resolved shaper) returns that very
    plan identity with a reference-count increment, builds nothing, and
    leaves the cache unchanged. -/
theorem cached_hit_returns_same_plan_identity
    (oracle : Oracle) (face : hb_face_t) (p : hb_segment_properties_t)
    (user_features : List hb_feature_t) (coords : List Int)
    (shaper_list : Option (List String)) (pid1 pid2 : Nat)
    (cache0 : List hb_shape_plan_t) (r1 r2 : CachedResult)
    (h1 : hb_shape_plan_create_cached2 oracle face p user_features coords shaper_list pid1
            cache0 = some r1)
    (hpub : r1.published = true)
    (hfresh : r1.plan.inert = false)
    (h2 : hb_shape_plan_create_cached2 oracle face p user_features coords shaper_list pid2
            r1.cache = some r2) :
    r2.plan = r1.plan ∧ r2.builtNew = false ∧
    r2.referenced = [r1.plan.planId] ∧ r2.cache = r1.cache := by
  rcases cached2_cases oracle face p user_features coords shaper_list pid1 cache0 r1 h1 with
    ⟨hit, _, _, hr⟩ | ⟨cres, _, _, hr⟩ | ⟨cres, _, _, _, _, hr⟩ |
    ⟨cres, hc, hD, hl, _, hr⟩
  · rw [hr] at hpub; exact absurd hpub (by simp [hitResult])
  · rw [hr] at hpub; exact absurd hpub (by simp [uncachedResult])
  · rw [hr] at hpub; exact absurd hpub (by simp [uncachedResult])
  · have hplan : cres.plan =
        { planId := pid1,
          key := computedKey oracle.probe p user_features coords shaper_list,
          face_unsafe := face.faceId, inert := false } := by
      rcases create2_some_spec oracle face p user_features coords shaper_list pid1 cres hc with
        ⟨_, hok⟩ | ⟨_, hbad⟩
      · exact hok
      · rw [hr] at hfresh
        rw [show (publishResult cache0 cres).plan = cres.plan from rfl, hbad] at hfresh
        exact absurd hfresh (by simp [empty_shape_plan])
    have hkey : hb_shape_plan_key_equal cres.plan.key
        (computedKey oracle.probe p user_features coords shaper_list) = true := by
      rw [hplan]
      exact hb_shape_plan_key_equal_refl _
    have hl2 : cacheLookup (computedKey oracle.probe p user_features coords shaper_list)
        (cres.plan :: cache0) = some cres.plan := by
      unfold cacheLookup
      rw [if_pos hkey]
    have hcache1 : r1.cache = cres.plan :: cache0 := by rw [hr]; rfl
    have heval2 : hb_shape_plan_create_cached2 oracle face p user_features coords shaper_list
        pid2 (cres.plan :: cache0) = some (hitResult (cres.plan :: cache0) cres.plan) := by
      rw [hb_shape_plan_create_cached2, hD, hl2]
      rfl
    rw [hcache1] at h2
    rw [heval2] at h2
    injection h2 with h2
    subst h2
    rw [hr]
    exact ⟨rfl, rfl, rfl, rfl⟩

/-- Witness for C3: two concrete successive calls, the second hitting the
    entry published by the first. -/
theorem cached_hit_returns_same_plan_identity_witness :
    c3r2.plan = c3r1.plan ∧ c3r2.builtNew = false ∧
    c3r2.referenced = [c3r1.plan.planId] ∧ c3r2.cache = c3r1.cache :=
  cached_hit_returns_same_plan_identity oracleAll face1 props1 [] [] none 31 32 [] c3r1 c3r2
    (by decide) (by decide) (by decide) (by decide)

/-- C9: a cacheable request whose plan creation fails still wraps the inert
    sentinel in a cache node and, the CAS succeeding, publishes it: the
    cache then contains the failure sentinel as an entry. -/
theorem failed_creation_sentinel_published_to_cache
    (oracle : Oracle) (face : hb_face_t) (p : hb_segment_properties_t)
    (user_features : List hb_feature_t) (coords : List Int)
    (shaper_list : Option (List String)) (pid : Nat) (cache : List hb_shape_plan_t)
    (cres : CreateResult) (r : CachedResult)
    (hdc : cachedDontCache oracle face p user_features coords shaper_list = false)
    (hmiss : cacheLookup (computedKey oracle.probe p user_features coords shaper_list)
               cache = none)
    (hnode : oracle.allocNode = true)
    (hcreate : hb_shape_plan_create2 oracle (some face) (some p) user_features coords
                 shaper_list pid = some cres)
    (hfail : cres.bail ≠ none)
    (hrun : hb_shape_plan_create_cached2 oracle face p user_features coords shaper_list pid
              cache = some r) :
    r.published = true ∧ r.plan = empty_shape_plan ∧
    r.cache = empty_shape_plan :: cache := by
  have hplan : cres.plan = empty_shape_plan := by
    rcases create2_some_spec oracle face p user_features coords shaper_list pid cres
        hcreate with ⟨hb, _⟩ | ⟨_, hp⟩
    · exact absurd hb hfail
    · exact hp
  have heval : hb_shape_plan_create_cached2 oracle face p user_features coords shaper_list
      pid cache = some (publishResult cache cres) := by
    rw [hb_shape_plan_create_cached2, hdc, hmiss, hcreate, hnode]
    rfl
  rw [heval] at hrun
  injection hrun with hrun
  subst hrun
  refine ⟨rfl, ?_, ?_⟩
  · show cres.plan = empty_shape_plan
    exact hplan
  · show cres.plan :: cache = empty_shape_plan :: cache
    rw [hplan]

/-- Witness for C9 at a concrete input (ot.init0 fails, node calloc
    succeeds). -/
theorem failed_creation_sentinel_published_to_cache_witness :
    c9res.published = true ∧ c9res.plan = empty_shape_plan ∧
    c9res.cache = empty_shape_plan :: [] :=
  failed_creation_sentinel_published_to_cache oracleInitFail face1 props1 [] [] none 9 []
    c9cres c9res (by decide) (by decide) (by decide) (by decide) (by decide) (by decide)

/-- C8 counterexample: a concrete createCached call's event trace runs
    chooseShaper (recording the backend into the Key) strictly before
    hb_face_make_immutable, which only happens inside the inner create
    call — the face is not yet immutable when the Key is computed. -/
theorem create_cached_computes_key_before_immutable :
    (hb_shape_plan_create_cached2 oracleAll face1 props1 [] [] none 21 []).map
        CachedResult.events =
      some [Event.chooseShaper, Event.makeImmutable, Event.chooseShaper] ∧
    choosesBeforeImmutable
      [Event.chooseShaper, Event.makeImmutable, Event.chooseShaper] = true := by
  refine ⟨by decide, by decide⟩

/-- C8 amended: in hb_shape_plan_create2 the face is made immutable before
    the Key's backend is chosen (no trace ever has chooseShaper first),
    while in hb_shape_plan_create_cached2 the Key — backend selection
    included — is computed first and the face is made immutable only later,
    inside the inner create call, if one runs at all. -/
theorem immutable_ordering_create_vs_cached :
    (∀ (oracle : Oracle) (face : Option hb_face_t)
       (props? : Option hb_segment_properties_t) (user_features : List hb_feature_t)
       (orig_coords : List Int) (shaper_list : Option (List String)) (pid : Nat)
       (r : CreateResult),
       hb_shape_plan_create2 oracle face props? user_features orig_coords shaper_list pid =
         some r →
       choosesBeforeImmutable r.events = false) ∧
    (∀ (oracle : Oracle) (face : hb_face_t) (p : hb_segment_properties_t)
       (user_features : List hb_feature_t) (coords : List Int)
       (shaper_list : Option (List String)) (pid : Nat) (cache : List hb_shape_plan_t)
       (r : CachedResult),
       hb_shape_plan_create_cached2 oracle face p user_features coords shaper_list pid
         cache = some r →
       choosesBeforeImmutable r.events = true) := by
  constructor
  · intro oracle face props? user_features orig_coords shaper_list pid r h
    rcases create2_events_shape oracle face props? user_features orig_coords shaper_list pid
        r h with he | he
    · rw [he]; rfl
    · rw [he]; rfl
  · intro oracle face p user_features coords shaper_list pid cache r h
    rcases cached2_cases oracle face p user_features coords shaper_list pid cache r h with
      ⟨hit, _, _, hr⟩ | ⟨cres, _, _, hr⟩ | ⟨cres, _, _, _, _, hr⟩ | ⟨cres, _, _, _, _, hr⟩
    · rw [hr]; rfl
    · rw [hr]; rfl
    · rw [hr]; rfl
    · rw [hr]; rfl

/-- Witness for the amended C8 at concrete inputs for both paths. -/
theorem immutable_ordering_create_vs_cached_witness :
    choosesBeforeImmutable c8cres.events = false ∧
    choosesBeforeImmutable c8res.events = true :=
  ⟨immutable_ordering_create_vs_cached.1 oracleAll (some face1) (some props1) [] [] none 41
     c8cres (by decide),
   immutable_ordering_create_vs_cached.2 oracleAll face1 props1 [] [] none 21 [] c8res
     (by decide)⟩

theorem hb_shape_plan_key_equal_symm (a b : hb_shape_plan_key_t)
    (h : hb_shape_plan_key_equal a b = true) : hb_shape_plan_key_equal b a = true := by
  rw [hb_shape_plan_key_equal_iff] at h ⊢
  exact ⟨h.1.symm, h.2.1.symm, h.2.2.1.symm, h.2.2.2.symm⟩

theorem hb_shape_plan_key_equal_trans (a b c : hb_shape_plan_key_t)
    (h1 : hb_shape_plan_key_equal a b = true)
    (h2 : hb_shape_plan_key_equal b c = true) : hb_shape_plan_key_equal a c = true := by
  rw [hb_shape_plan_key_equal_iff] at h1 h2 ⊢
  exact ⟨h1.1.trans h2.1, h1.2.1.trans h2.2.1, h1.2.2.1.trans h2.2.2.1,
    h1.2.2.2.trans h2.2.2.2⟩

/-- A scan that returns no node means no node's key equals the searched
    key. -/
theorem cacheLookup_none_forall (k : hb_shape_plan_key_t) (cache : List hb_shape_plan_t)
    (h : cacheLookup k cache = none) :
    ∀ q ∈ cache, hb_shape_plan_key_equal q.key k = false := by
  induction cache with
  | nil => intro q hq; cases hq
  | cons a rest ih =>
    intro q hq
    unfold cacheLookup at h
    by_cases ha : hb_shape_plan_key_equal a.key k = true
    · rw [if_pos ha] at h; cases h
    · rw [if_neg ha] at h
      rcases List.mem_cons.mp hq with rfl | hq'
      · exact Bool.eq_false_iff.mpr ha
      · exact ih h q hq'

/-- C1 counterexample: from an empty cache, two createCached calls with
    different cacheable keys whose plan creations fail each publish a node
    wrapping the inert sentinel, so a state with two reachable CacheNodes
    whose Plans' Keys are equal (the sentinel's cacheable zero key) is
    reachable — duplicate keys do coexist. -/
theorem cache_duplicate_sentinel_nodes_reachable :
    CacheReachable [empty_shape_plan, empty_shape_plan] ∧
    hb_shape_plan_key_dont_cache empty_shape_plan.key = false ∧
    countMatching [empty_shape_plan, empty_shape_plan] empty_shape_plan.key = 2 := by
  refine ⟨?_, by decide, by decide⟩
  have h1 : CacheStep [] (c1cres1.plan :: []) :=
    CacheStep.cas oracleInitFail face1 props1 [] [] none 11 c1cres1
      (by decide) (by decide) (by decide)
  have hp1 : c1cres1.plan = empty_shape_plan := by decide
  rw [hp1] at h1
  have h2 : CacheStep [empty_shape_plan] (c1cres2.plan :: [empty_shape_plan]) :=
    CacheStep.cas oracleInitFail face1 props2 [] [] none 12 c1cres2
      (by decide) (by decide) (by decide)
  have hp2 : c1cres2.plan = empty_shape_plan := by decide
  rw [hp2] at h2
  exact CacheReachable.step _ _ (CacheReachable.step _ _ CacheReachable.init h1) h2

/-- C1 amended: at every observation point of a face's cache list — under
    any interleaving of concurrent createCached calls — at most one
    reachable CacheNode wrapping a non-inert Plan has a given Key: a
    successful CAS validates the insertion against the very snapshot whose
    scan missed the key, and a successfully created plan carries the key
    that was searched.  Only nodes wrapping the inert sentinel (published
    by failed creations, cf. C9) can duplicate a Key. -/
theorem cache_at_most_one_noninert_node_per_key (cache : List hb_shape_plan_t)
    (h : CacheReachable cache) (k : hb_shape_plan_key_t) :
    countNonInertMatching cache k ≤ 1 := by
  induction h with
  | init => simp [countNonInertMatching]
  | step c c' hreach hstep ih =>
    cases hstep with
    | cas oracle face p user_features coords shaper_list pid cres hdc hmiss hcreate =>
      unfold countNonInertMatching
      rw [List.filter_cons]
      split
      · rename_i hcond
        rcases create2_some_spec oracle face p user_features coords shaper_list pid cres
            hcreate with ⟨_, hok⟩ | ⟨_, hbad⟩
        · have hkK : hb_shape_plan_key_equal cres.plan.key k = true := by
            simp only [Bool.and_eq_true] at hcond
            exact hcond.2
          have hkey : cres.plan.key =
              computedKey oracle.probe p user_features coords shaper_list := by
            rw [hok]
          have hz : c.filter (fun q => !q.inert && hb_shape_plan_key_equal q.key k) = [] := by
            rw [List.filter_eq_nil_iff]
            intro q hq hcq
            simp only [Bool.and_eq_true] at hcq
            have hqK : hb_shape_plan_key_equal q.key cres.plan.key = true :=
              hb_shape_plan_key_equal_trans q.key k cres.plan.key hcq.2
                (hb_shape_plan_key_equal_symm cres.plan.key k hkK)
            have hnone := cacheLookup_none_forall
              (computedKey oracle.probe p user_features coords shaper_list) c hmiss q hq
            rw [hkey] at hqK
            exact absurd hqK (by rw [hnone]; decide)
          rw [hz]
          simp
        · have hinert : cres.plan.inert = true := by rw [hbad]; rfl
          rw [hinert] at hcond
          simp at hcond
      · unfold countNonInertMatching at ih
        exact ih

/-- Witness for the amended C1: the invariant instantiated at the initial
    cache state and the sentinel key. -/
theorem cache_at_most_one_noninert_node_per_key_witness :
    countNonInertMatching [] empty_key ≤ 1 :=
  cache_at_most_one_noninert_node_per_key [] CacheReachable.init empty_key

end HBShapePlan
